import Mathlib

/-!
Shallow embedding of the Disclosure Validation & Application Synthesis Engine
of `patent_studio` (module `src/tools/disclosure_processor.py`, data model in
`src/schemas/disclosure_schemas.py`).

Modelling conventions:
* Python `Optional[str]` fields become `Option String`; Python truthiness of an
  optional string (`if x:`) is `pyTruthy`, falsiness (`if not x:`) is `pyFalsy`.
* The pydantic field `technical_solution` is required by the schema, but pydantic
  v1 does not re-validate on assignment, so a `PatentDisclosure` whose
  `technical_solution` is `None` is reachable at runtime; it is modelled as
  `Option TechnicalSolution`, with `none` for the absent case that
  `validate_disclosure` itself guards for on line 98 of the source.
* A Python `AttributeError` raised by dereferencing `None` is modelled by the
  `Except.error` branch of the corresponding function.
* `completeness_score` is a Python float, but every operation on it adds or
  subtracts integers starting from 100.0, so all reachable values are exact
  integers; it is modelled as `Int`.
* Python `len(s)` on a string counts code points, as does `String.length`;
  Python `s.strip()` removes leading and trailing whitespace, modelled by
  `strippedLen` (length after dropping whitespace on both ends); Python `s[:n]`
  slices the first `n` code points, modelled by `pyTake`.
-/

deriving instance DecidableEq for Except

namespace PatentStudio

/-- `TechnicalProblem` from `schemas/disclosure_schemas.py`. -/
structure TechnicalProblem where
  description : String
  existing_solutions : Option String := none
  limitations : Option String := none
  deriving DecidableEq

/-- `TechnicalSolution` from `schemas/disclosure_schemas.py`. -/
structure TechnicalSolution where
  overview : String
  key_steps : List String := []
  innovation_points : List String := []
  implementation_details : Option String := none
  deriving DecidableEq

/-- `PatentDisclosure` from `schemas/disclosure_schemas.py`; only the fields read
by `disclosure_processor.py` are carried (id, keywords, attachments, status and
the timestamps are never read by the engine). -/
structure PatentDisclosure where
  title : String
  patent_type : String := "invention"
  inventors : List String
  applicant_name : String
  applicant_address : Option String := none
  contact_phone : Option String := none
  contact_email : Option String := none
  technical_field : String
  background_description : String
  technical_problems : List TechnicalProblem
  technical_solution : Option TechnicalSolution
  beneficial_effects : List String
  embodiments : List String := []
  figure_descriptions : List String := []
  prior_art_references : List String := []
  deriving DecidableEq

/-- `DisclosureValidationResult` from `schemas/disclosure_schemas.py`. -/
structure DisclosureValidationResult where
  is_valid : Bool
  errors : List String
  warnings : List String
  suggestions : List String
  completeness_score : Int
  deriving DecidableEq

/-- Python truthiness of an `Optional[str]` value. -/
def pyTruthy : Option String → Bool
  | none => false
  | some s => !(s == "")

/-- Python falsiness (`if not x:`) of an `Optional[str]` value. -/
def pyFalsy (o : Option String) : Bool := !(pyTruthy o)

/-- Length of a Python-`strip`ped string: code points remaining after removing
leading and trailing whitespace. -/
def strippedLen (s : String) : Nat :=
  ((s.data.dropWhile Char.isWhitespace).reverse.dropWhile Char.isWhitespace).length

/-- Python string slice `s[:n]`: the first `n` code points. -/
def pyTake (s : String) (n : Nat) : String := String.mk (s.data.take n)

/-- Python `s.strip()`: remove leading and trailing whitespace. -/
def pyStrip (s : String) : String :=
  String.mk (((s.data.dropWhile Char.isWhitespace).reverse.dropWhile Char.isWhitespace).reverse)

/-! ## Validator (`validate_disclosure`, lines 58-141) -/

/-- The blocking errors accumulated by `validate_disclosure` (lines 74-120), in
the order the source appends them. -/
def validationErrors (d : PatentDisclosure) : List String :=
  (if d.title == "" || strippedLen d.title < 5 then
    ["发明名称过短或为空，至少需要5个字符"] else []) ++
  (if d.inventors.isEmpty then ["必须至少有一位发明人"] else []) ++
  (if d.applicant_name == "" then ["申请人名称不能为空"] else []) ++
  (if d.technical_field == "" || strippedLen d.technical_field < 10 then
    ["技术领域描述过短，至少需要10个字符"] else []) ++
  (if d.background_description == "" || strippedLen d.background_description < 50 then
    ["背景技术描述过短，至少需要50个字符"] else []) ++
  (if d.technical_problems.isEmpty then ["必须描述至少一个要解决的技术问题"] else []) ++
  (match d.technical_solution with
   | none => ["技术方案不能为空"]
   | some sol => if sol.overview == "" then ["技术方案概述不能为空"] else []) ++
  (if d.beneficial_effects.isEmpty then ["必须描述至少一项有益效果"] else []) ++
  (if d.patent_type == "utility_model" && d.figure_descriptions.length == 0 then
    ["实用新型专利必须有附图说明"] else [])

/-- The advisory warnings accumulated by `validate_disclosure` (lines 110-116). -/
def validationWarnings (d : PatentDisclosure) : List String :=
  (if d.embodiments.isEmpty then ["建议提供至少一个具体实施例"] else []) ++
  (if d.figure_descriptions.isEmpty then ["建议提供附图说明"] else [])

/-- The suggestions accumulated by `validate_disclosure` (lines 122-130); the
source reads `technical_solution.innovation_points` without a `None` guard, so
this is only reached with the solution present. -/
def validationSuggestions (d : PatentDisclosure) (sol : TechnicalSolution) : List String :=
  (if sol.innovation_points.isEmpty then
    ["建议明确列出技术方案的创新点，有助于撰写权利要求书"] else []) ++
  (if d.prior_art_references.isEmpty then
    ["建议提供现有技术参考文献，有助于撰写背景技术部分"] else []) ++
  (if pyFalsy d.contact_email then ["建议提供联系邮箱，便于后续沟通"] else [])

/-- The running score of `validate_disclosure` before the final clamp on
line 133: 100 minus the weight of every check that fired. -/
def raw_score (d : PatentDisclosure) : Int :=
  100
  - (if d.title == "" || strippedLen d.title < 5 then 15 else 0)
  - (if d.inventors.isEmpty then 10 else 0)
  - (if d.applicant_name == "" then 10 else 0)
  - (if d.technical_field == "" || strippedLen d.technical_field < 10 then 10 else 0)
  - (if d.background_description == "" || strippedLen d.background_description < 50 then 10 else 0)
  - (if d.technical_problems.isEmpty then 15 else 0)
  - (match d.technical_solution with
     | none => (15 : Int)
     | some sol => if sol.overview == "" then 10 else 0)
  - (if d.beneficial_effects.isEmpty then 10 else 0)
  - (if d.embodiments.isEmpty then 5 else 0)
  - (if d.figure_descriptions.isEmpty then 5 else 0)
  - (if d.patent_type == "utility_model" && d.figure_descriptions.length == 0 then 10 else 0)

/-- `DisclosureProcessor.validate_disclosure` (lines 58-141).  On a disclosure
whose `technical_solution` is `None`, line 123 of the source dereferences
`disclosure.technical_solution.innovation_points` unconditionally and raises
`AttributeError` before any result is built; that raise is the `Except.error`
branch here. -/
def validate_disclosure (d : PatentDisclosure) : Except String DisclosureValidationResult :=
  match d.technical_solution with
  | none => .error ("AttributeError: NoneType object has no attribute innovation_points")
  | some sol =>
    .ok { is_valid := (validationErrors d).isEmpty
        , errors := validationErrors d
        , warnings := validationWarnings d
        , suggestions := validationSuggestions d sol
        , completeness_score := max 0 (min 100 (raw_score d)) }

/-! ## Claim Synthesizer (`_generate_claims_from_disclosure`, lines 417-444) -/

/-- The numbered sub-clauses of independent claim 1, one per key step
(line 424-425): enumeration starts at 0 and renders `i+1`. -/
def stepClauses (i : Nat) : List String → String
  | [] => ""
  | s :: ss => "    （" ++ toString (i + 1) ++ "）" ++ s ++ "；\n" ++ stepClauses (i + 1) ss

/-- Independent claim 1 (lines 422-428). -/
def independentClaim (title : String) (sol : TechnicalSolution) : String :=
  "1. " ++ title ++ "，其特征在于：\n" ++
  (if sol.key_steps.isEmpty then "    包括" ++ pyTake sol.overview 50 ++ "。"
   else stepClauses 0 sol.key_steps)

/-- One dependent claim derived from an innovation point (line 433). -/
def dependentClaim (title : String) (i : Nat) (point : String) : String :=
  toString i ++ ". " ++ "根据权利要求1所述的" ++ title ++ "，其特征在于：" ++ point ++ "。"

/-- The dependent claims derived from innovation points, numbered from `i`
(lines 432-434, `enumerate(points[:4], 2)`). -/
def dependentClaims (title : String) : Nat → List String → List String
  | _, [] => []
  | i, p :: ps => dependentClaim title i p :: dependentClaims title (i + 1) ps

/-- The three fixed fallback dependent claims emitted when there are no
innovation points (lines 436-439). -/
def fallbackDependentClaims (title : String) : List String :=
  [ "2. " ++ "根据权利要求1所述的" ++ title ++ "，其特征在于：所述技术方案还包括数据预处理步骤。"
  , "3. " ++ "根据权利要求1所述的" ++ title ++ "，其特征在于：所述技术方案还包括结果验证步骤。"
  , "4. " ++ "根据权利要求1所述的" ++ title ++ "，其特征在于：所述技术方案可以应用于多种场景。" ]

/-- The final system/apparatus claim (line 442): a fixed string, literally
numbered 5 and literally referencing claims 1-4, with no dependence on how many
dependent claims were actually emitted. -/
def systemClaim : String :=
  "5. 一种实现权利要求1-4任一项所述方法的系统，其特征在于：包括处理模块、控制模块和输出模块。"

/-- `DisclosureProcessor._generate_claims_from_disclosure` (lines 417-444).
Line 423 dereferences `disclosure.technical_solution.key_steps`, so an absent
solution raises `AttributeError`. -/
def generate_claims_from_disclosure (d : PatentDisclosure) : Except String (List String) :=
  match d.technical_solution with
  | none => .error ("AttributeError: NoneType object has no attribute key_steps")
  | some sol =>
    .ok (independentClaim d.title sol ::
      ((if sol.innovation_points.isEmpty then fallbackDependentClaims d.title
        else dependentClaims d.title 2 (sol.innovation_points.take 4)) ++
       [systemClaim]))

/-! ## Request Normalizer (`disclosure_to_patent_request`, lines 143-208) -/

/-- `PatentType` from `schemas/patent_schemas.py` (that file is not among the
sources; the three variants are fixed by the spec and by the mapping on
lines 193-197). -/
inductive PatentType
  | invention
  | utility_model
  | design
  deriving DecidableEq

/-- `PatentDraftRequest`: the draft-request shape constructed on lines 199-208;
the field list is exactly the set of keyword arguments passed there. -/
structure PatentDraftRequest where
  invention_description : String
  technical_field : String
  background_info : String
  specific_problems : String
  solution : String
  beneficial_effects : String
  patent_type : PatentType
  language : String
  deriving DecidableEq

/-- The numbered technical-problem block (lines 154-161), numbering from `i`. -/
def problemsText (i : Nat) : List TechnicalProblem → String
  | [] => ""
  | p :: ps =>
    toString i ++ ". " ++ p.description ++
    (if pyTruthy p.existing_solutions then
      "\n   现有方案：" ++ p.existing_solutions.getD ("") else "") ++
    (if pyTruthy p.limitations then
      "\n   局限性：" ++ p.limitations.getD ("") else "") ++
    "\n\n" ++ problemsText (i + 1) ps

/-- A numbered-line block `"{i}. {x}\n"…` as built on lines 167-168 and
172-173, numbering from `i`. -/
def numberedLines (i : Nat) : List String → String
  | [] => ""
  | x :: xs => toString i ++ ". " ++ x ++ "\n" ++ numberedLines (i + 1) xs

/-- The merged solution block (lines 163-176). -/
def solutionText (sol : TechnicalSolution) : String :=
  sol.overview ++ "\n\n" ++
  (if sol.key_steps.isEmpty then ""
   else "关键步骤：\n" ++ numberedLines 1 sol.key_steps ++ "\n") ++
  (if sol.innovation_points.isEmpty then ""
   else "创新点：\n" ++ numberedLines 1 sol.innovation_points ++ "\n") ++
  (if pyTruthy sol.implementation_details then
    "实现细节：\n" ++ sol.implementation_details.getD ("") ++ "\n" else "")

/-- `DisclosureProcessor.disclosure_to_patent_request` (lines 143-208).
Line 164 dereferences `disclosure.technical_solution.overview`, so an absent
solution raises `AttributeError`. -/
def disclosure_to_patent_request (d : PatentDisclosure) : Except String PatentDraftRequest :=
  match d.technical_solution with
  | none => .error ("AttributeError: NoneType object has no attribute overview")
  | some sol =>
    .ok { invention_description :=
            pyStrip ("\n" ++ d.title ++ "\n\n技术方案：\n" ++ sol.overview ++
              "\n\n具体实施方式：\n" ++
              (if d.embodiments.isEmpty then "待补充"
               else String.intercalate ("\n") d.embodiments) ++
              "\n        ")
        , technical_field := d.technical_field
        , background_info := d.background_description
        , specific_problems := problemsText 1 d.technical_problems
        , solution := solutionText sol
        , beneficial_effects :=
            String.intercalate ("\n") (d.beneficial_effects.map (fun e => "- " ++ e))
        , patent_type :=
            if d.patent_type == "utility_model" then PatentType.utility_model
            else if d.patent_type == "design" then PatentType.design
            else PatentType.invention
        , language := ("zh") }

/-! ## Processing pipeline (`process_disclosure`, lines 210-261) -/

/-- `ApplicantInfo` from `schemas/patent_schemas.py` (file not among the
sources); the field list is the set of keyword arguments passed on
lines 237-243. -/
structure ApplicantInfo where
  name : String
  address : String
  country : String
  email : Option String
  phone : Option String
  deriving DecidableEq

/-- `InventorInfo` from `schemas/patent_schemas.py` (file not among the
sources); fields as passed on line 247. -/
structure InventorInfo where
  name : String
  country : String
  deriving DecidableEq

/-- `PatentApplication` from `schemas/patent_schemas.py` (file not among the
sources); only the fields that `disclosure_processor.py` reads or writes are
carried. -/
structure PatentApplication where
  title : String
  patent_type : PatentType
  applicant : ApplicantInfo
  inventors : List InventorInfo
  technical_field : String
  brief_description : String
  invention_content : String
  deriving DecidableEq

/-- The applicant info built on lines 237-243 (`applicant_address or "待填写"`
is Python `or`, i.e. the fallback fires on `None` and on the empty string). -/
def applicantInfoOf (d : PatentDisclosure) : ApplicantInfo :=
  { name := d.applicant_name
  , address := if pyTruthy d.applicant_address then d.applicant_address.getD ("") else "待填写"
  , country := ("中国")
  , email := d.contact_email
  , phone := d.contact_phone }

/-- Modelled from the spec: `PatentWriter.generate_patent_application` lives in
`tools/patent_writer.py`, which is not among the sources.  Per the spec
(sections 2, 4.4, 5) the Document Assembler is a pure, total, deterministic,
synchronous function of the draft request and the party information that always
produces an assembled application.  The exact section text is irrelevant to
every claim below; only the fields consumed afterwards by
`disclosure_processor.py` are given concrete values. -/
def generate_patent_application (request : PatentDraftRequest) (applicant : ApplicantInfo)
    (inventors : List InventorInfo) : PatentApplication :=
  { title := request.invention_description
  , patent_type := request.patent_type
  , applicant := applicant
  , inventors := inventors
  , technical_field := request.technical_field
  , brief_description := ("附图用于进一步说明本发明的实施方式。")
  , invention_content := request.solution }

/-- The tail of `process_disclosure` after the optional validation gate
(lines 233-261): normalize, build party info, assemble, then overwrite the
title with the disclosure title. -/
def assembleApplication (d : PatentDisclosure)
    (validation_result : Option DisclosureValidationResult) :
    Except String (Option PatentApplication × Option DisclosureValidationResult) :=
  match disclosure_to_patent_request d with
  | .error e => .error e
  | .ok draft_request =>
    let applicant_info := applicantInfoOf d
    let inventor_info := d.inventors.map (fun n => { name := n, country := ("中国") : InventorInfo })
    let application := generate_patent_application draft_request applicant_info inventor_info
    .ok (some { application with title := d.title }, validation_result)

/-- `DisclosureProcessor.process_disclosure` (lines 210-261): optionally
validate; on a validation result with `is_valid == False` return
`(None, validation_result)` without assembling; otherwise assemble. -/
def process_disclosure (d : PatentDisclosure) (validate : Bool) :
    Except String (Option PatentApplication × Option DisclosureValidationResult) :=
  if validate then
    match validate_disclosure d with
    | .error e => .error e
    | .ok validation_result =>
      if validation_result.is_valid then assembleApplication d (some validation_result)
      else .ok (none, some validation_result)
  else
    assembleApplication d none

/-! ## Concrete disclosures used by witnesses and counterexamples -/

/-- The solution of scenario A of the spec: an overview, five key steps, no
innovation points. -/
def solA : TechnicalSolution :=
  { overview := "采用深度学习模型对输入图像进行特征提取和分类识别"
  , key_steps := ["采集图像数据", "训练深度模型", "部署推理服务", "监控识别效果", "定期更新模型"]
  , innovation_points := [] }

/-- A disclosure in the shape of scenario A of the spec: every required field
satisfied, no embodiments, no figure descriptions, patent type `invention`. -/
def dA : PatentDisclosure :=
  { title := "AI图像识别方法"
  , inventors := ["张三"]
  , applicant_name := "某科技公司"
  , technical_field := "本发明涉及计算机视觉技术领域"
  , background_description :=
      "现有的图像识别方法在低光照和遮挡场景下识别精度明显下降，难以满足工业应用对稳定性和准确率的要求，亟需改进。"
  , technical_problems := [{ description := "现有方法识别精度不足" }]
  , technical_solution := some solA
  , beneficial_effects := ["识别精度显著提升"] }

/-- `solA` with exactly one innovation point. -/
def solOnePoint : TechnicalSolution :=
  { solA with innovation_points := ["采用轻量级模型结构"] }

/-- A fully valid disclosure whose solution has exactly one innovation point. -/
def dOnePoint : PatentDisclosure := { dA with technical_solution := some solOnePoint }

/-- Scenario B of the spec: scenario A as a utility model with no figures. -/
def dB : PatentDisclosure := { dA with patent_type := "utility_model" }

/-- Scenario A with the technical solution absent. -/
def dNone : PatentDisclosure := { dA with technical_solution := none }

/-- A solution with five identical innovation points and no key steps. -/
def solFivePoints : TechnicalSolution :=
  { overview := solA.overview
  , innovation_points := ["X", "X", "X", "X", "X"] }

/-- A disclosure whose solution has five innovation points. -/
def dFivePoints : PatentDisclosure := { dA with technical_solution := some solFivePoints }

/-- A maximally deficient utility-model disclosure: every required field empty,
solution present with an empty overview; its naive weighted subtraction is
100 − 110 = −10. -/
def dDeficient : PatentDisclosure :=
  { title := ""
  , patent_type := "utility_model"
  , inventors := []
  , applicant_name := ""
  , technical_field := ""
  , background_description := ""
  , technical_problems := []
  , technical_solution := some { overview := "" }
  , beneficial_effects := [] }

/-- The validation result of `dA` (scenario A): valid, score 90. -/
def vA : DisclosureValidationResult :=
  { is_valid := true
  , errors := []
  , warnings := ["建议提供至少一个具体实施例", "建议提供附图说明"]
  , suggestions :=
      [ "建议明确列出技术方案的创新点，有助于撰写权利要求书"
      , "建议提供现有技术参考文献，有助于撰写背景技术部分"
      , "建议提供联系邮箱，便于后续沟通" ]
  , completeness_score := 90 }

/-- The validation result of `dB` (scenario B): invalid, score 80. -/
def vB : DisclosureValidationResult :=
  { is_valid := false
  , errors := ["实用新型专利必须有附图说明"]
  , warnings := ["建议提供至少一个具体实施例", "建议提供附图说明"]
  , suggestions :=
      [ "建议明确列出技术方案的创新点，有助于撰写权利要求书"
      , "建议提供现有技术参考文献，有助于撰写背景技术部分"
      , "建议提供联系邮箱，便于后续沟通" ]
  , completeness_score := 80 }

/-- The validation result of `dA` with one embodiment added: score 95. -/
def vAEmb : DisclosureValidationResult :=
  { vA with warnings := ["建议提供附图说明"], completeness_score := 95 }

/-- The validation result of `dA` with one figure description added: score 95. -/
def vAFig : DisclosureValidationResult :=
  { vA with warnings := ["建议提供至少一个具体实施例"], completeness_score := 95 }

/-- The validation result of `dOnePoint`: valid, score 90, no innovation-point
suggestion. -/
def vOnePoint : DisclosureValidationResult :=
  { vA with suggestions :=
      [ "建议提供现有技术参考文献，有助于撰写背景技术部分"
      , "建议提供联系邮箱，便于后续沟通" ] }

/-- The validation result of `dDeficient`: every blocking error fires and the
clamped score is 0 (the raw score is −10). -/
def vDeficient : DisclosureValidationResult :=
  { is_valid := false
  , errors :=
      [ "发明名称过短或为空，至少需要5个字符"
      , "必须至少有一位发明人"
      , "申请人名称不能为空"
      , "技术领域描述过短，至少需要10个字符"
      , "背景技术描述过短，至少需要50个字符"
      , "必须描述至少一个要解决的技术问题"
      , "技术方案概述不能为空"
      , "必须描述至少一项有益效果"
      , "实用新型专利必须有附图说明" ]
  , warnings := ["建议提供至少一个具体实施例", "建议提供附图说明"]
  , suggestions :=
      [ "建议明确列出技术方案的创新点，有助于撰写权利要求书"
      , "建议提供现有技术参考文献，有助于撰写背景技术部分"
      , "建议提供联系邮箱，便于后续沟通" ]
  , completeness_score := 0 }

/-! ## Helper notions and lemmas -/

/-- `needle` occurs as a contiguous substring of `hay` (both as code-point
lists); this is the sense in which a text "appears in" a claim. -/
def containsSub : List Char → List Char → Bool
  | n, [] => n.isEmpty
  | n, c :: rest => n.isPrefixOf (c :: rest) || containsSub n rest

/-- A claim string carries the 1-based index `n`: its text starts with
`"{n}. "`. -/
def claimNumbered (n : Nat) (c : String) : Prop :=
  (toString n ++ ". ").data <+: c.data

theorem data_append (a b : String) : (a ++ b).data = a.data ++ b.data := rfl

theorem claimNumbered_head (n : Nat) (h rest : String)
    (hh : h = toString n ++ ". ") : claimNumbered n (h ++ rest) := by
  subst hh
  exact ⟨rest.data, rfl⟩

theorem claimNumbered_self (n : Nat) : claimNumbered n (toString n ++ ". ") :=
  ⟨[], List.append_nil _⟩

theorem claimNumbered_extend {n : Nat} {a : String} (b : String)
    (h : claimNumbered n a) : claimNumbered n (a ++ b) := by
  rcases h with ⟨t, ht⟩
  exact ⟨t ++ b.data, by rw [← List.append_assoc, ht, data_append]⟩

theorem claimNumbered_dependent (t : String) (i : Nat) (p : String) :
    claimNumbered i (dependentClaim t i p) :=
  claimNumbered_extend _ (claimNumbered_extend _ (claimNumbered_extend _
    (claimNumbered_extend _ (claimNumbered_extend _ (claimNumbered_self i)))))

theorem claimNumbered_independent (t : String) (sol : TechnicalSolution) :
    claimNumbered 1 (independentClaim t sol) :=
  claimNumbered_extend _ (claimNumbered_extend _
    (claimNumbered_head 1 ("1. ") t (by decide)))

theorem dependentClaims_length (t : String) (ps : List String) :
    ∀ i, (dependentClaims t i ps).length = ps.length := by
  induction ps with
  | nil => intro i; rfl
  | cons p ps ih => intro i; simp [dependentClaims, ih]

theorem clamp_mono {a b : Int} (h : a ≤ b) :
    max 0 (min 100 a) ≤ max 0 (min 100 b) :=
  max_le_max le_rfl (min_le_min le_rfl h)

/-! ## Settled claims -/

/-- C3: the claim says `validate_disclosure` reports an absent
`technicalSolution` as a blocking error and never raises.  The code appends the
blocking error on lines 98-100, but line 123 then dereferences
`disclosure.technical_solution.innovation_points` unconditionally, so the call
raises `AttributeError` instead of returning the result: the code contradicts
its own `None` guard.  This theorem evaluates the model at the failing input. -/
theorem validator_raises_on_absent_solution :
    validate_disclosure dNone =
      .error ("AttributeError: NoneType object has no attribute innovation_points") := rfl

/-- C4: whenever validation (with the validate flag on) yields
`is_valid == False`, `process_disclosure` returns `(None, validation_result)`
and never reaches document assembly (lines 228-231 return before
`disclosure_to_patent_request` and the writer are invoked). -/
theorem invalid_disclosure_blocks_assembly (d : PatentDisclosure)
    (r : DisclosureValidationResult)
    (hv : validate_disclosure d = .ok r) (hinv : r.is_valid = false) :
    process_disclosure d true = .ok (none, some r) := by
  simp [process_disclosure, hv, hinv]

theorem invalid_disclosure_blocks_assembly_witness :
    validate_disclosure dB = .ok vB ∧ vB.is_valid = false ∧
      process_disclosure dB true = .ok (none, some vB) :=
  ⟨by decide, rfl, invalid_disclosure_blocks_assembly dB vB (by decide) rfl⟩

/-- C5: every `ValidationResult` that `validate_disclosure` returns has
`is_valid == true` exactly when its error list is empty; `is_valid` is computed
from the error list alone (line 136), so warnings and suggestions never
influence it. -/
theorem is_valid_iff_no_errors (d : PatentDisclosure) (r : DisclosureValidationResult)
    (hv : validate_disclosure d = .ok r) :
    (r.is_valid = true ↔ r.errors = []) ∧ r.is_valid = r.errors.isEmpty := by
  cases hsol : d.technical_solution with
  | none => rw [validate_disclosure, hsol] at hv; cases hv
  | some sol =>
    rw [validate_disclosure, hsol] at hv
    cases hv
    constructor
    · simp [List.isEmpty_iff]
    · rfl

theorem is_valid_iff_no_errors_witness :
    validate_disclosure dA = .ok vA ∧
      ((vA.is_valid = true ↔ vA.errors = []) ∧ vA.is_valid = vA.errors.isEmpty) :=
  ⟨by decide, is_valid_iff_no_errors dA vA (by decide)⟩

/-- C6: every completeness score that `validate_disclosure` returns lies in
[0, 100]; line 133 clamps the running score. -/
theorem completeness_score_in_range (d : PatentDisclosure)
    (r : DisclosureValidationResult) (hv : validate_disclosure d = .ok r) :
    0 ≤ r.completeness_score ∧ r.completeness_score ≤ 100 := by
  cases hsol : d.technical_solution with
  | none => rw [validate_disclosure, hsol] at hv; cases hv
  | some sol =>
    rw [validate_disclosure, hsol] at hv
    cases hv
    exact ⟨le_max_left 0 _, max_le (by norm_num) (min_le_left _ _)⟩

theorem completeness_score_in_range_witness :
    validate_disclosure dDeficient = .ok vDeficient ∧
      raw_score dDeficient = -10 ∧
      (0 ≤ vDeficient.completeness_score ∧ vDeficient.completeness_score ≤ 100) :=
  ⟨by decide, by decide, completeness_score_in_range dDeficient vDeficient (by decide)⟩

/-- C7: on a utility-model disclosure with no figure descriptions, the
validator reports the utility-model figure error (so `is_valid` is false),
still emits the generic empty-figures warning, and the running score accrues
both the −10 error penalty (it vanishes when only the patent type changes to
`invention`) and the −5 warning penalty (it vanishes in the invention-typed
disclosure when a figure description is supplied). -/
theorem utility_model_double_penalty (d : PatentDisclosure)
    (r : DisclosureValidationResult)
    (hp : d.patent_type = "utility_model") (hf : d.figure_descriptions = [])
    (hv : validate_disclosure d = .ok r) :
    "实用新型专利必须有附图说明" ∈ r.errors ∧
    "建议提供附图说明" ∈ r.warnings ∧
    r.is_valid = false ∧
    raw_score d = raw_score { d with patent_type := "invention" } - 10 ∧
    raw_score { d with patent_type := "invention" } =
      raw_score { d with patent_type := "invention", figure_descriptions := ["图1"] } - 5 := by
  cases hsol : d.technical_solution with
  | none => rw [validate_disclosure, hsol] at hv; cases hv
  | some sol =>
    rw [validate_disclosure, hsol] at hv
    cases hv
    refine ⟨?_, ?_, ?_, ?_, ?_⟩
    · simp [validationErrors, hp, hf]
    · simp [validationWarnings, hf]
    · simp [validationErrors, hp, hf]
    · simp [raw_score, hp, hf, hsol]
    · simp [raw_score, hp, hf, hsol]

theorem utility_model_double_penalty_witness :
    dB.patent_type = "utility_model" ∧ dB.figure_descriptions = [] ∧
      validate_disclosure dB = .ok vB ∧ vB.completeness_score = 80 ∧
      ("实用新型专利必须有附图说明" ∈ vB.errors ∧
       "建议提供附图说明" ∈ vB.warnings ∧
       vB.is_valid = false ∧
       raw_score dB = raw_score { dB with patent_type := "invention" } - 10 ∧
       raw_score { dB with patent_type := "invention" } =
         raw_score { dB with patent_type := "invention", figure_descriptions := ["图1"] } - 5) :=
  ⟨rfl, rfl, by decide, rfl,
    utility_model_double_penalty dB vB rfl rfl (by decide)⟩

/-- C9: completeness scoring is monotone in satisfying one more checked field
while all else is fixed: a disclosure with a non-empty `embodiments` (resp.
`figure_descriptions`) sequence never scores below the same disclosure with
that sequence empty. -/
theorem completeness_score_monotone (d : PatentDisclosure) (es fs : List String)
    (r₀ r₁ r₂ r₃ : DisclosureValidationResult)
    (h₀ : validate_disclosure { d with embodiments := [] } = .ok r₀)
    (h₁ : validate_disclosure { d with embodiments := es } = .ok r₁)
    (h₂ : validate_disclosure { d with figure_descriptions := [] } = .ok r₂)
    (h₃ : validate_disclosure { d with figure_descriptions := fs } = .ok r₃) :
    r₀.completeness_score ≤ r₁.completeness_score ∧
    r₂.completeness_score ≤ r₃.completeness_score := by
  cases hsol : d.technical_solution with
  | none =>
    rw [validate_disclosure] at h₀
    simp only [hsol] at h₀
    cases h₀
  | some sol =>
    rw [validate_disclosure] at h₀ h₁ h₂ h₃
    simp only [hsol] at h₀ h₁ h₂ h₃
    cases h₀; cases h₁; cases h₂; cases h₃
    constructor
    · apply clamp_mono
      simp only [raw_score, hsol]
      cases hes : es.isEmpty <;> simp
    · apply clamp_mono
      simp only [raw_score, hsol]
      cases fs with
      | nil => simp
      | cons f ft =>
        cases hpt : (d.patent_type == "utility_model") <;> simp [hpt]
        omega

theorem completeness_score_monotone_witness :
    validate_disclosure { dA with embodiments := [] } = .ok vA ∧
      validate_disclosure { dA with embodiments := ["实施例一"] } = .ok vAEmb ∧
      validate_disclosure { dA with figure_descriptions := [] } = .ok vA ∧
      validate_disclosure { dA with figure_descriptions := ["图1"] } = .ok vAFig ∧
      (vA.completeness_score ≤ vAEmb.completeness_score ∧
       vA.completeness_score ≤ vAFig.completeness_score) :=
  ⟨by decide, by decide, by decide, by decide,
    completeness_score_monotone dA ["实施例一"] ["图1"] vA vAEmb vA vAFig
      (by decide) (by decide) (by decide) (by decide)⟩

/-- C10 counterexample: with validation disabled, `process_disclosure` does
not always return an application — on a disclosure whose technical solution is
absent, `disclosure_to_patent_request` dereferences
`disclosure.technical_solution.overview` (line 164) and raises. -/
theorem unvalidated_processing_raises_on_absent_solution :
    process_disclosure dNone false =
      .error ("AttributeError: NoneType object has no attribute overview") := rfl

/-- C10 (amended): for every disclosure whose technical solution is present,
`process_disclosure` with `validate=False` returns `None` as the validation
result together with an assembled application — even when `validate_disclosure`
would reject the disclosure, so the flag bypasses the validation gate. -/
theorem validation_gate_bypass (d : PatentDisclosure) (sol : TechnicalSolution)
    (hsol : d.technical_solution = some sol) :
    ∃ app, process_disclosure d false = .ok (some app, none) := by
  have h1 : process_disclosure d false = assembleApplication d none := rfl
  rw [h1, assembleApplication, disclosure_to_patent_request]
  simp only [hsol]
  exact ⟨_, rfl⟩

theorem validation_gate_bypass_witness :
    dB.technical_solution = some solA ∧
      (validate_disclosure dB).map (fun r => r.is_valid) = .ok false ∧
      (∃ app, process_disclosure dB false = .ok (some app, none)) :=
  ⟨rfl, by decide, validation_gate_bypass dB solA rfl⟩

theorem claimNumbered_system : claimNumbered 5 systemClaim :=
  ⟨("一种实现权利要求1-4任一项所述方法的系统，其特征在于：包括处理模块、控制模块和输出模块。").data,
    by decide⟩

/-- C1 counterexample: `dOnePoint` passes validation (`is_valid = true`) yet
the synthesizer returns only 3 claims, not at least 5. -/
theorem valid_disclosure_with_only_three_claims :
    (validate_disclosure dOnePoint).map (fun r => r.is_valid) = .ok true ∧
    (generate_claims_from_disclosure dOnePoint).map List.length = .ok 3 := by decide

/-- C1 (amended): for a disclosure passing validation, the synthesizer returns
`2 + D` claims where `D` (the number of dependent claims) is 3 when there are
no innovation points and `min N 4` when there are `N ≥ 1`; the total is always
at least 3, and is at least 5 exactly when `N = 0` or `N ≥ 3` — with `N` equal
to 1 or 2 the set has only 3 or 4 claims. -/
theorem claim_count_formula (d : PatentDisclosure) (r : DisclosureValidationResult)
    (hv : validate_disclosure d = .ok r) (_hval : r.is_valid = true) :
    ∃ sol cs, d.technical_solution = some sol ∧
      generate_claims_from_disclosure d = .ok cs ∧
      cs.length = 2 + (if sol.innovation_points.isEmpty then 3
                       else min sol.innovation_points.length 4) ∧
      3 ≤ cs.length ∧
      ((sol.innovation_points = [] ∨ 3 ≤ sol.innovation_points.length) → 5 ≤ cs.length) := by
  cases hsol : d.technical_solution with
  | none => rw [validate_disclosure, hsol] at hv; cases hv
  | some sol =>
    refine ⟨sol,
      independentClaim d.title sol ::
        ((if sol.innovation_points.isEmpty then fallbackDependentClaims d.title
          else dependentClaims d.title 2 (sol.innovation_points.take 4)) ++ [systemClaim]),
      rfl, by rw [generate_claims_from_disclosure, hsol], ?_, ?_, ?_⟩
    · cases hpts : sol.innovation_points.isEmpty with
      | true => simp [hpts, fallbackDependentClaims]
      | false =>
        simp [hpts, dependentClaims_length, List.length_take, Nat.min_comm]
        omega
    · cases hpts : sol.innovation_points with
      | nil => simp [fallbackDependentClaims]
      | cons p ps =>
        simp [dependentClaims_length, List.length_take, List.length_cons]
    · intro h
      cases hpts : sol.innovation_points with
      | nil => simp [fallbackDependentClaims]
      | cons p ps =>
        rw [hpts] at h
        simp [dependentClaims_length, List.length_take, List.length_cons]
        rcases h with h | h
        · simp at h
        · simp [List.length_cons] at h
          omega

theorem claim_count_formula_witness :
    validate_disclosure dA = .ok vA ∧ vA.is_valid = true ∧
      (∃ sol cs, dA.technical_solution = some sol ∧
        generate_claims_from_disclosure dA = .ok cs ∧
        cs.length = 2 + (if sol.innovation_points.isEmpty then 3
                         else min sol.innovation_points.length 4) ∧
        3 ≤ cs.length ∧
        ((sol.innovation_points = [] ∨ 3 ≤ sol.innovation_points.length) → 5 ≤ cs.length)) :=
  ⟨by decide, rfl, claim_count_formula dA vA (by decide) rfl⟩

/-- C2 counterexample: on `dOnePoint` the claim set has 3 entries whose
leading numbers are 1, 2 and 5 — the indices are not contiguous and the final
system claim still references claims 1-4, although the last dependent claim
emitted is claim 2. -/
theorem claim_numbering_gap :
    (generate_claims_from_disclosure dOnePoint).map
        (fun cs => cs.map (fun c => c.data.take 3)) =
      .ok [['1', '.', ' '], ['2', '.', ' '], ['5', '.', ' ']] ∧
    (generate_claims_from_disclosure dOnePoint).map (fun cs => cs.getLast?) =
      .ok (some systemClaim) := by decide

/-- C2 (amended): index 1 is always the independent claim and the final claim
is always the single system claim, which is literally numbered 5 and literally
references claims 1-4 regardless of how many dependent claims precede it; the
set is contiguously numbered 1..5 with the system claim referencing claims
1 through the last dependent index (4) exactly when three dependent claims are
emitted, i.e. when the innovation points number 0 or exactly 3. -/
theorem claim_set_shape (d : PatentDisclosure) (sol : TechnicalSolution)
    (hsol : d.technical_solution = some sol)
    (hdep : sol.innovation_points = [] ∨ sol.innovation_points.length = 3) :
    ∃ cs, generate_claims_from_disclosure d = .ok cs ∧
      cs.length = 5 ∧
      cs.head? = some (independentClaim d.title sol) ∧
      cs.getLast? = some systemClaim ∧
      ∀ i c, cs.get? i = some c → claimNumbered (i + 1) c := by
  rcases hdep with hpts | hpts
  · refine ⟨independentClaim d.title sol :: (fallbackDependentClaims d.title ++ [systemClaim]),
      by rw [generate_claims_from_disclosure, hsol]; simp [hpts], ?_, rfl, ?_, ?_⟩
    · simp [fallbackDependentClaims]
    · simp [fallbackDependentClaims]
    · intro i c hc
      rcases i with _ | _ | _ | _ | _ | i <;>
        simp [fallbackDependentClaims, List.get?] at hc <;> subst hc
      · exact claimNumbered_independent d.title sol
      · exact claimNumbered_extend _ (claimNumbered_extend _
          (claimNumbered_head 2 ("2. ") ("根据权利要求1所述的") (by decide)))
      · exact claimNumbered_extend _ (claimNumbered_extend _
          (claimNumbered_head 3 ("3. ") ("根据权利要求1所述的") (by decide)))
      · exact claimNumbered_extend _ (claimNumbered_extend _
          (claimNumbered_head 4 ("4. ") ("根据权利要求1所述的") (by decide)))
      · exact claimNumbered_system
  · obtain ⟨a, b, c, habc⟩ := List.length_eq_three.mp hpts
    refine ⟨independentClaim d.title sol ::
        ([dependentClaim d.title 2 a, dependentClaim d.title 3 b, dependentClaim d.title 4 c] ++
          [systemClaim]),
      by rw [generate_claims_from_disclosure, hsol]; simp [habc, dependentClaims], ?_, rfl, ?_, ?_⟩
    · simp
    · simp
    · intro i x hx
      rcases i with _ | _ | _ | _ | _ | i <;> simp [List.get?] at hx <;> subst hx
      · exact claimNumbered_independent d.title sol
      · exact claimNumbered_dependent d.title 2 a
      · exact claimNumbered_dependent d.title 3 b
      · exact claimNumbered_dependent d.title 4 c
      · exact claimNumbered_system

theorem claim_set_shape_witness :
    dA.technical_solution = some solA ∧
      (solA.innovation_points = [] ∨ solA.innovation_points.length = 3) ∧
      (∃ cs, generate_claims_from_disclosure dA = .ok cs ∧
        cs.length = 5 ∧
        cs.head? = some (independentClaim dA.title solA) ∧
        cs.getLast? = some systemClaim ∧
        ∀ i c, cs.get? i = some c → claimNumbered (i + 1) c) :=
  ⟨rfl, Or.inl rfl, claim_set_shape dA solA rfl (Or.inl rfl)⟩

/-- C8 counterexample: with five identical innovation points the text of the
5th point does appear in a claim of the returned set (it occurs verbatim in
dependent claim 2), refuting the universally quantified absence statement. -/
theorem fifth_point_text_appears :
    (dFivePoints.technical_solution.map (fun sol => sol.innovation_points.length)) = some 5 ∧
    (dFivePoints.technical_solution.map (fun sol => sol.innovation_points.get? 4)) =
      some (some ("X")) ∧
    (generate_claims_from_disclosure dFivePoints).map
      (fun cs => cs.any (fun cl => containsSub ("X").data cl.data)) = .ok true := by decide

/-- C8 (amended): with `N ≥ 5` innovation points the synthesizer emits exactly
4 dependent claims, derived from points 1-4 in order and numbered 2-5 (the set
has 6 claims in total), and points beyond the 4th are not used: the claim set
is identical to the one generated after truncating the innovation points to the
first 4. -/
theorem innovation_point_cap (d : PatentDisclosure) (sol : TechnicalSolution)
    (hsol : d.technical_solution = some sol)
    (h5 : 5 ≤ sol.innovation_points.length) :
    ∃ cs, generate_claims_from_disclosure d = .ok cs ∧
      cs.length = 6 ∧
      (∀ k p, k < 4 → sol.innovation_points.get? k = some p →
        cs.get? (k + 1) = some (dependentClaim d.title (k + 2) p)) ∧
      generate_claims_from_disclosure d =
        generate_claims_from_disclosure
          ({ d with technical_solution := some ({ sol with innovation_points := sol.innovation_points.take 4 }) }) := by
  obtain ⟨ov, ks, pts, impl⟩ := sol
  rcases pts with _ | ⟨a, _ | ⟨b, _ | ⟨c, _ | ⟨e, rest⟩⟩⟩⟩
  · simp at h5
  · simp at h5
  · simp at h5
  · simp at h5
  · refine ⟨independentClaim d.title ⟨ov, ks, a :: b :: c :: e :: rest, impl⟩ ::
        ([dependentClaim d.title 2 a, dependentClaim d.title 3 b,
          dependentClaim d.title 4 c, dependentClaim d.title 5 e] ++ [systemClaim]),
      by rw [generate_claims_from_disclosure, hsol]; simp [dependentClaims], ?_, ?_, ?_⟩
    · simp
    · intro k p hk hp
      interval_cases k <;> simp_all [List.get?]
    · rw [generate_claims_from_disclosure, hsol, generate_claims_from_disclosure]
      simp [dependentClaims, independentClaim]

theorem innovation_point_cap_witness :
    dFivePoints.technical_solution = some solFivePoints ∧
      5 ≤ solFivePoints.innovation_points.length ∧
      (∃ cs, generate_claims_from_disclosure dFivePoints = .ok cs ∧
        cs.length = 6 ∧
        (∀ k p, k < 4 → solFivePoints.innovation_points.get? k = some p →
          cs.get? (k + 1) = some (dependentClaim dFivePoints.title (k + 2) p)) ∧
        generate_claims_from_disclosure dFivePoints =
          generate_claims_from_disclosure
            ({ dFivePoints with technical_solution := some ({ solFivePoints with innovation_points := solFivePoints.innovation_points.take 4 }) })) :=
  ⟨rfl, by decide, innovation_point_cap dFivePoints solFivePoints rfl (by decide)⟩

end PatentStudio
